import Mathlib

/-!
# Timezone service: catalog, registry and request handlers

A shallow embedding of `main.go`: the static catalog `timezones`, the
process-global map `userTimezoneMap`, and the three HTTP handlers
`GetTimezonesHandler`, `SaveTimezoneHandler` and `GetCurrentTimeHandler`.
The library calls the handlers make (JSON decoding of the body, the timezone
database, the clock) are parameters of the model, collected in `Env`.
-/

namespace Timezones

set_option maxRecDepth 100000

/-! ## Data model -/

/-- Timezone represents a structured timezone entry (`type Timezone struct`). -/
structure Timezone where
  Label : String
  Identifier : String
  UTCOffset : String
  deriving DecidableEq, Repr

/-- Predefined list of timezones (`var timezones = []Timezone{...}`). -/
def timezones : List Timezone :=
  [ ⟨"UTC (Coordinated Universal Time)", "UTC", "UTC + 0:00"⟩,
    ⟨"GMT (Greenwich Mean Time)", "Europe/London", "UTC + 0:00"⟩,
    ⟨"CET (Central European Time)", "Europe/Berlin", "UTC + 1:00"⟩,
    ⟨"EET (Eastern European Time)", "Europe/Athens", "UTC + 2:00"⟩,
    ⟨"MSK (Moscow Standard Time)", "Europe/Moscow", "UTC + 3:00"⟩,
    ⟨"GST (Gulf Standard Time)", "Asia/Dubai", "UTC + 4:00"⟩,
    ⟨"IST (Indian Standard Time)", "Asia/Kolkata", "UTC + 5:30"⟩,
    ⟨"BST (Bangladesh Standard Time)", "Asia/Dhaka", "UTC + 6:00"⟩,
    ⟨"ICT (Indochina Time)", "Asia/Bangkok", "UTC + 7:00"⟩,
    ⟨"CST (China Standard Time)", "Asia/Shanghai", "UTC + 8:00"⟩,
    ⟨"AWST (Australian Western Standard Time)", "Australia/Perth", "UTC + 8:00"⟩,
    ⟨"JST (Japan Standard Time)", "Asia/Tokyo", "UTC + 9:00"⟩,
    ⟨"KST (Korea Standard Time)", "Asia/Seoul", "UTC + 9:00"⟩,
    ⟨"ACST (Australia Central Standard Time)", "Australia/Adelaide", "UTC + 9:30"⟩,
    ⟨"AEST (Australia Eastern Standard Time)", "Australia/Sydney", "UTC + 10:00"⟩,
    ⟨"ChST (Chamorro Standard Time)", "Pacific/Guam", "UTC + 10:00"⟩,
    ⟨"NZST (New Zealand Standard Time)", "Pacific/Auckland", "UTC + 12:00"⟩,
    ⟨"SST (Samoa Standard Time)", "Pacific/Pago_Pago", "UTC-11:00"⟩,
    ⟨"HST (Hawaii Standard Time)", "Pacific/Honolulu", "UTC-10:00"⟩,
    ⟨"AKST (Alaska Standard Time)", "America/Anchorage", "UTC - 9:00"⟩,
    ⟨"PST (Pacific Standard Time)", "America/Los_Angeles", "UTC - 8:00"⟩,
    ⟨"MST (Mountain Standard Time)", "America/Denver", "UTC - 7:00"⟩,
    ⟨"CST (Central Standard Time)", "America/Chicago", "UTC - 6:00"⟩,
    ⟨"EST (Eastern Standard Time)", "America/New_York", "UTC - 5:00"⟩,
    ⟨"AST (Atlantic Standard Time)", "America/Puerto_Rico", "UTC - 4:00"⟩,
    ⟨"NST (Newfoundland Standard Time)", "America/St_Johns", "UTC - 3:30"⟩,
    ⟨"BRT (Brasília Time)", "America/Sao_Paulo", "UTC - 3:00"⟩,
    ⟨"ART (Argentina Time)", "America/Argentina/Buenos_Aires", "UTC - 3:00"⟩ ]

/-- The state of the Go map `userTimezoneMap` (`map[string]string`): the value
stored under each key, `none` for a key the map does not hold. -/
abbrev UserTimezoneMap := String → Option String

/-- The map right after `make(map[string]string)`. -/
def emptyMap : UserTimezoneMap := fun _ => none

/-- The map assignment `userTimezoneMap[key] = value`. -/
def mapAssign (m : UserTimezoneMap) (key value : String) : UserTimezoneMap :=
  fun k => if k = key then some value else m k

/-- The two-result map read `value, exists := userTimezoneMap[key]`; a missing
key reads as the zero value `""` with `exists = false`. -/
def mapIndex (m : UserTimezoneMap) (key : String) : String × Bool :=
  match m key with
  | some v => (v, true)
  | none => ("", false)

/-- SaveTimezoneRequest represents the payload to save a timezone. -/
structure SaveTimezoneRequest where
  UserID : String
  Timezone : String
  deriving DecidableEq, Repr

/-- The parsed query string of a request (`url.Values`): the values listed
under each key, `[]` for an absent key. -/
abbrev Values := String → List String

/-- The library accessor `url.Values.Get`: the first value of the key, or `""`
when there is none. -/
def Values.Get (v : Values) (key : String) : String :=
  match v key with
  | [] => ""
  | x :: _ => x

/-- The parts of an `*http.Request` the handlers read. -/
structure HttpRequest where
  Body : String
  Query : Values

/-- What a handler hands to the response writer as the body. -/
inductive Payload where
  /-- The plain-text message of `http.Error`. -/
  | text (msg : String)
  /-- A `[]Timezone` given to the JSON encoder. -/
  | jsonTimezones (tzs : List Timezone)
  /-- A `map[string]string` literal given to the JSON encoder, keys in the
  order the source writes them. -/
  | jsonObject (fields : List (String × String))
  deriving DecidableEq

/-- The observable response: status code and payload. -/
structure Response where
  status : Nat
  payload : Payload
  deriving DecidableEq

/-- The value of a field of a JSON object payload, if the payload is one and
has the field. -/
def Response.field (r : Response) (key : String) : Option String :=
  match r.payload with
  | .jsonObject fields => fields.lookup key
  | _ => none

def StatusOK : Nat := 200
def StatusBadRequest : Nat := 400
def StatusNotFound : Nat := 404
def StatusInternalServerError : Nat := 500

/-- The library and platform calls of the handlers, as parameters:
`jsonDecode body` is the outcome of `json.NewDecoder(r.Body).Decode(&req)`
(`none` for `err != nil`), `LoadLocation` is `time.LoadLocation` (`none` for
`err != nil`), and `formatRFC3339 loc now` is
`now.In(loc).Format(time.RFC3339)`. -/
structure Env (Loc : Type) where
  jsonDecode : String → Option SaveTimezoneRequest
  LoadLocation : String → Option Loc
  formatRFC3339 : Loc → Int → String

/-! ## Handlers -/

/-- The validation loop of `SaveTimezoneHandler`
(`for _, tz := range timezones { if req.Timezone == tz.Label { ...; break } }`),
run over the remaining entries from the initial `valid = false`,
`tzIdentifier = ""`; returns the final `(valid, tzIdentifier)`. -/
def validateLoop : List Timezone → String → Bool × String
  | [], _ => (false, "")
  | tz :: rest, label =>
    if label = tz.Label then (true, tz.Identifier) else validateLoop rest label

/-- GetTimezonesHandler returns available timezones. -/
def GetTimezonesHandler (m : UserTimezoneMap) (_r : HttpRequest) :
    UserTimezoneMap × Response :=
  (m, ⟨StatusOK, .jsonTimezones timezones⟩)

/-- SaveTimezoneHandler validates and saves a user's timezone. -/
def SaveTimezoneHandler {Loc : Type} (env : Env Loc) (m : UserTimezoneMap)
    (r : HttpRequest) : UserTimezoneMap × Response :=
  match env.jsonDecode r.Body with
  | none => (m, ⟨StatusBadRequest, .text "Invalid request payload"⟩)
  | some req =>
    match validateLoop timezones req.Timezone with
    | (false, _) => (m, ⟨StatusBadRequest, .text "Invalid timezone selection"⟩)
    | (true, tzIdentifier) =>
      (mapAssign m req.UserID tzIdentifier,
        ⟨StatusOK, .jsonObject [("message", "Timezone saved successfully"),
                                ("timezone", tzIdentifier)]⟩)

/-- GetCurrentTimeHandler returns the current time for a user; `now` is the
instant `time.Now()` yields while the request is handled. -/
def GetCurrentTimeHandler {Loc : Type} (env : Env Loc) (m : UserTimezoneMap)
    (r : HttpRequest) (now : Int) : UserTimezoneMap × Response :=
  let userID := r.Query.Get "user_id"
  if userID = "" then (m, ⟨StatusBadRequest, .text "User ID is required"⟩)
  else
    match mapIndex m userID with
    | (_, false) => (m, ⟨StatusNotFound, .text "User timezone not found"⟩)
    | (tzIdentifier, true) =>
      match env.LoadLocation tzIdentifier with
      | none => (m, ⟨StatusInternalServerError, .text "Invalid timezone"⟩)
      | some loc =>
        (m, ⟨StatusOK, .jsonObject [("user_id", userID),
                                    ("timezone", tzIdentifier),
                                    ("current_time", env.formatRFC3339 loc now)]⟩)

/-! ## The service as a state machine -/

/-- The three routes registered in `main`. -/
inductive Route where
  | timezones
  | usersTimezone
  | usersCurrentTime
  deriving DecidableEq

/-- One inbound request: the route it is dispatched to, the request, and the
clock reading while it is handled. -/
structure Event where
  route : Route
  req : HttpRequest
  now : Int

/-- Dispatch of one request to its handler. -/
def serve {Loc : Type} (env : Env Loc) (m : UserTimezoneMap) (ev : Event) :
    UserTimezoneMap × Response :=
  match ev.route with
  | .timezones => GetTimezonesHandler m ev.req
  | .usersTimezone => SaveTimezoneHandler env m ev.req
  | .usersCurrentTime => GetCurrentTimeHandler env m ev.req ev.now

/-- The map after serving a finite sequence of requests one after another. -/
def run {Loc : Type} (env : Env Loc) (m : UserTimezoneMap) :
    List Event → UserTimezoneMap
  | [] => m
  | ev :: rest => run env (serve env m ev).1 rest

/-- The invariant of the map: every stored value is a catalog identifier. -/
def ValidMap (m : UserTimezoneMap) : Prop :=
  ∀ u v, m u = some v → ∃ e ∈ timezones, e.Identifier = v

/-! ## Sample environment used to evaluate the model on concrete inputs -/

/-- A toy body decoder: `"<user_id>,<timezone>"`, split at the first comma;
a body without a comma does not parse. -/
def sampleDecode (body : String) : Option SaveTimezoneRequest :=
  match body.toList.span (fun c => c ≠ ',') with
  | (u, _ :: t) => some ⟨String.mk u, String.mk t⟩
  | (_, []) => none

/-- A toy timezone database: resolves exactly the catalog identifiers, each to
the position of its first entry in the catalog. -/
def sampleLoadLocation (name : String) : Option Nat :=
  timezones.findIdx? (fun tz => tz.Identifier = name)

/-- A toy formatter: shows only the location and the instant. -/
def sampleFormat (loc : Nat) (now : Int) : String :=
  toString loc ++ "@" ++ toString now

/-- The sample environment. -/
def sampleEnv : Env Nat := ⟨sampleDecode, sampleLoadLocation, sampleFormat⟩

/-- A query string holding the single pair `user_id=<u>`. -/
def userQuery (u : String) : Values :=
  fun k => if k = "user_id" then [u] else []

/-- A query string with no parameters. -/
def noQuery : Values := fun _ => []

/-- A sample session: a valid save for `u1`, a query for `u1`, a rejected save
for `u2`, and a catalog listing. -/
def sampleEvents : List Event :=
  [⟨Route.usersTimezone, ⟨"u1,JST (Japan Standard Time)", noQuery⟩, 0⟩,
   ⟨Route.usersCurrentTime, ⟨"", userQuery "u1"⟩, 5⟩,
   ⟨Route.usersTimezone, ⟨"u2,Nonexistent Zone", noQuery⟩, 6⟩,
   ⟨Route.timezones, ⟨"", noQuery⟩, 7⟩]

/-- A sample session that never saves for `u1`: a valid save for `u2`, a
rejected save for `u3`, a query for `u2`, and a catalog listing. -/
def otherEvents : List Event :=
  [⟨Route.usersTimezone, ⟨"u2,UTC (Coordinated Universal Time)", noQuery⟩, 1⟩,
   ⟨Route.usersTimezone, ⟨"u3,Nonexistent Zone", noQuery⟩, 2⟩,
   ⟨Route.usersCurrentTime, ⟨"", userQuery "u2"⟩, 3⟩,
   ⟨Route.timezones, ⟨"", noQuery⟩, 4⟩]

/-! ## Lemmas about the validation loop and the handlers -/

theorem validateLoop_true (l : List Timezone) (label id : String)
    (h : validateLoop l label = (true, id)) :
    ∃ e ∈ l, e.Label = label ∧ e.Identifier = id := by
  induction l with
  | nil => simp [validateLoop] at h
  | cons tz rest ih =>
    unfold validateLoop at h
    by_cases hl : label = tz.Label
    · rw [if_pos hl] at h
      refine ⟨tz, List.mem_cons_self _ _, hl.symm, ?_⟩
      exact congrArg Prod.snd h
    · rw [if_neg hl] at h
      obtain ⟨e, he, h1, h2⟩ := ih h
      exact ⟨e, List.mem_cons_of_mem _ he, h1, h2⟩

theorem validateLoop_false (l : List Timezone) (label id : String)
    (h : validateLoop l label = (false, id)) :
    ∀ e ∈ l, label ≠ e.Label := by
  induction l with
  | nil => intro e he; cases he
  | cons tz rest ih =>
    unfold validateLoop at h
    by_cases hl : label = tz.Label
    · rw [if_pos hl] at h
      exact absurd (congrArg Prod.fst h) (by simp)
    · rw [if_neg hl] at h
      intro e he
      rcases List.mem_cons.mp he with rfl | he
      · exact hl
      · exact ih h e he

theorem validateLoop_absent (l : List Timezone) (label : String)
    (h : ∀ e ∈ l, label ≠ e.Label) : validateLoop l label = (false, "") := by
  induction l with
  | nil => rfl
  | cons tz rest ih =>
    unfold validateLoop
    rw [if_neg (h tz (List.mem_cons_self _ _))]
    exact ih (fun e he => h e (List.mem_cons_of_mem _ he))

theorem validateLoop_catalog :
    ∀ e ∈ timezones, validateLoop timezones e.Label = (true, e.Identifier) := by
  decide

/-- A save request that parses to a catalog label stores the identifier of
that entry and answers 200 with it. -/
theorem SaveTimezoneHandler_valid {Loc : Type} (env : Env Loc) (m : UserTimezoneMap)
    (r : HttpRequest) (userID : String) (e : Timezone) (he : e ∈ timezones)
    (hparse : env.jsonDecode r.Body = some ⟨userID, e.Label⟩) :
    SaveTimezoneHandler env m r =
      (mapAssign m userID e.Identifier,
        ⟨200, .jsonObject [("message", "Timezone saved successfully"),
                           ("timezone", e.Identifier)]⟩) := by
  unfold SaveTimezoneHandler
  rw [hparse]
  simp only [validateLoop_catalog e he]
  rfl

/-- Every save request either leaves the map alone and answers 400, or parses
to a catalog label and writes that entry's identifier under the parsed user. -/
theorem SaveTimezoneHandler_cases {Loc : Type} (env : Env Loc) (m : UserTimezoneMap)
    (r : HttpRequest) :
    ((SaveTimezoneHandler env m r).1 = m ∧ (SaveTimezoneHandler env m r).2.status = 400 ∧
      (env.jsonDecode r.Body = none ∨
        ∃ req, env.jsonDecode r.Body = some req ∧ ∀ e ∈ timezones, req.Timezone ≠ e.Label)) ∨
    (∃ req e, env.jsonDecode r.Body = some req ∧ e ∈ timezones ∧ e.Label = req.Timezone ∧
      SaveTimezoneHandler env m r =
        (mapAssign m req.UserID e.Identifier,
          ⟨200, .jsonObject [("message", "Timezone saved successfully"),
                             ("timezone", e.Identifier)]⟩)) := by
  cases hd : env.jsonDecode r.Body with
  | none =>
    left
    simp [SaveTimezoneHandler, hd, StatusBadRequest]
  | some req =>
    cases hv : validateLoop timezones req.Timezone with
    | mk valid id =>
      cases valid with
      | false =>
        left
        refine ⟨?_, ?_, Or.inr ⟨req, rfl, validateLoop_false _ _ _ hv⟩⟩
        · simp [SaveTimezoneHandler, hd, hv]
        · simp [SaveTimezoneHandler, hd, hv, StatusBadRequest]
      | true =>
        right
        obtain ⟨e, he, h1, h2⟩ := validateLoop_true _ _ _ hv
        refine ⟨req, e, rfl, he, h1, ?_⟩
        simp [SaveTimezoneHandler, hd, hv, StatusOK, h2]

theorem GetTimezonesHandler_map (m : UserTimezoneMap) (r : HttpRequest) :
    (GetTimezonesHandler m r).1 = m := rfl

theorem GetCurrentTimeHandler_map {Loc : Type} (env : Env Loc) (m : UserTimezoneMap)
    (r : HttpRequest) (now : Int) : (GetCurrentTimeHandler env m r now).1 = m := by
  unfold GetCurrentTimeHandler
  simp only
  split
  · rfl
  · split
    · rfl
    · split <;> rfl

theorem ValidMap_empty : ValidMap emptyMap := by
  intro u v h
  simp [emptyMap] at h

theorem ValidMap_serve {Loc : Type} (env : Env Loc) (m : UserTimezoneMap) (ev : Event)
    (hm : ValidMap m) : ValidMap (serve env m ev).1 := by
  unfold serve
  cases ev.route with
  | timezones => simpa [GetTimezonesHandler_map] using hm
  | usersCurrentTime => simpa [GetCurrentTimeHandler_map] using hm
  | usersTimezone =>
    simp only
    rcases SaveTimezoneHandler_cases env m ev.req with ⟨h, _, _⟩ | ⟨req, e, _, he, _, h⟩
    · rw [h]; exact hm
    · rw [h]
      intro u v huv
      simp only [mapAssign] at huv
      by_cases hk : u = req.UserID
      · rw [if_pos hk] at huv
        exact ⟨e, he, Option.some.inj huv⟩
      · rw [if_neg hk] at huv
        exact hm u v huv

theorem ValidMap_run {Loc : Type} (env : Env Loc) (evs : List Event) :
    ∀ m, ValidMap m → ValidMap (run env m evs) := by
  induction evs with
  | nil => intro m hm; exact hm
  | cons ev rest ih =>
    intro m hm
    exact ih _ (ValidMap_serve env m ev hm)

/-- The lookup of a user survives every request that is not a save parsing to
that user. -/
theorem serve_other {Loc : Type} (env : Env Loc) (m : UserTimezoneMap) (ev : Event)
    (u : String)
    (h : ev.route = Route.usersTimezone →
      (env.jsonDecode ev.req.Body).map SaveTimezoneRequest.UserID ≠ some u) :
    (serve env m ev).1 u = m u := by
  unfold serve
  cases hr : ev.route with
  | timezones => rfl
  | usersCurrentTime => simp only [GetCurrentTimeHandler_map]
  | usersTimezone =>
    simp only
    rcases SaveTimezoneHandler_cases env m ev.req with ⟨h1, _, _⟩ | ⟨req, e, hd, _, _, h1⟩
    · rw [h1]
    · rw [h1]
      have hne : req.UserID ≠ u := by
        have := h hr
        rw [hd] at this
        simpa using this
      simp only [mapAssign]
      rw [if_neg (fun hk => hne hk.symm)]

theorem run_other {Loc : Type} (env : Env Loc) (evs : List Event) (u : String)
    (h : ∀ ev ∈ evs, ev.route = Route.usersTimezone →
      (env.jsonDecode ev.req.Body).map SaveTimezoneRequest.UserID ≠ some u) :
    ∀ m, run env m evs u = m u := by
  induction evs with
  | nil => intro m; rfl
  | cons ev rest ih =>
    intro m
    unfold run
    rw [ih (fun ev2 h2 => h ev2 (List.mem_cons_of_mem _ h2))]
    exact serve_other env m ev u (h ev (List.mem_cons_self _ _))

/-- The full case analysis of `GetCurrentTimeHandler` on the first `user_id`
value and the stored entry. -/
theorem GetCurrentTimeHandler_cases {Loc : Type} (env : Env Loc) (m : UserTimezoneMap)
    (r : HttpRequest) (now : Int) :
    (r.Query.Get "user_id" = "" ∧
      (GetCurrentTimeHandler env m r now).2 = ⟨400, .text "User ID is required"⟩) ∨
    (r.Query.Get "user_id" ≠ "" ∧ m (r.Query.Get "user_id") = none ∧
      (GetCurrentTimeHandler env m r now).2 = ⟨404, .text "User timezone not found"⟩) ∨
    (r.Query.Get "user_id" ≠ "" ∧
      ∃ id, m (r.Query.Get "user_id") = some id ∧ env.LoadLocation id = none ∧
        (GetCurrentTimeHandler env m r now).2 = ⟨500, .text "Invalid timezone"⟩) ∨
    (r.Query.Get "user_id" ≠ "" ∧
      ∃ id loc, m (r.Query.Get "user_id") = some id ∧ env.LoadLocation id = some loc ∧
        (GetCurrentTimeHandler env m r now).2 =
          ⟨200, .jsonObject [("user_id", r.Query.Get "user_id"), ("timezone", id),
                             ("current_time", env.formatRFC3339 loc now)]⟩) := by
  by_cases hu : r.Query.Get "user_id" = ""
  · left
    refine ⟨hu, ?_⟩
    simp [GetCurrentTimeHandler, hu, StatusBadRequest]
  · right
    cases hm : m (r.Query.Get "user_id") with
    | none =>
      left
      refine ⟨hu, rfl, ?_⟩
      simp [GetCurrentTimeHandler, hu, mapIndex, hm, StatusNotFound]
    | some id =>
      right
      cases hl : env.LoadLocation id with
      | none =>
        left
        refine ⟨hu, id, rfl, hl, ?_⟩
        simp [GetCurrentTimeHandler, hu, mapIndex, hm, hl, StatusInternalServerError]
      | some loc =>
        right
        refine ⟨hu, id, loc, rfl, hl, ?_⟩
        simp [GetCurrentTimeHandler, hu, mapIndex, hm, hl, StatusOK]

/-! ## The claims -/

/-- C1: scanning the 28-entry catalog for the label of any of its entries
finds a match and yields exactly that entry's identifier (so the labels are
pairwise distinct and first-match hides no entry), and scanning for a string
that equals no catalog label reports not-found. -/
theorem catalog_label_lookup :
    timezones.length = 28 ∧
    (∀ e ∈ timezones, validateLoop timezones e.Label = (true, e.Identifier)) ∧
    (timezones.map Timezone.Label).Nodup ∧
    (∀ label : String, (∀ e ∈ timezones, label ≠ e.Label) →
      validateLoop timezones label = (false, "")) :=
  ⟨by decide, by decide, by decide, fun label h => validateLoop_absent timezones label h⟩

/-- C2: for every map state, user id and catalog entry `e`, a save request
whose body parses to `(user_id, e.Label)` answers 200 with the body
`{message: "Timezone saved successfully", timezone: e.Identifier}`, and the map
afterwards holds `e.Identifier` (not the label) under the user id. -/
theorem save_success {Loc : Type} (env : Env Loc) (m : UserTimezoneMap)
    (r : HttpRequest) (userID : String) (e : Timezone) (he : e ∈ timezones)
    (hparse : env.jsonDecode r.Body = some ⟨userID, e.Label⟩) :
    (SaveTimezoneHandler env m r).2 =
      ⟨200, .jsonObject [("message", "Timezone saved successfully"),
                         ("timezone", e.Identifier)]⟩ ∧
    (SaveTimezoneHandler env m r).1 userID = some e.Identifier ∧
    mapIndex (SaveTimezoneHandler env m r).1 userID = (e.Identifier, true) := by
  rw [SaveTimezoneHandler_valid env m r userID e he hparse]
  simp [mapAssign, mapIndex]

theorem save_success_witness :
    (SaveTimezoneHandler sampleEnv (mapAssign emptyMap "u1" "UTC")
        ⟨"u1,JST (Japan Standard Time)", noQuery⟩).2 =
      ⟨200, .jsonObject [("message", "Timezone saved successfully"),
                         ("timezone", "Asia/Tokyo")]⟩ ∧
    (SaveTimezoneHandler sampleEnv (mapAssign emptyMap "u1" "UTC")
        ⟨"u1,JST (Japan Standard Time)", noQuery⟩).1 "u1" = some "Asia/Tokyo" ∧
    mapIndex (SaveTimezoneHandler sampleEnv (mapAssign emptyMap "u1" "UTC")
        ⟨"u1,JST (Japan Standard Time)", noQuery⟩).1 "u1" = ("Asia/Tokyo", true) :=
  save_success sampleEnv (mapAssign emptyMap "u1" "UTC")
    ⟨"u1,JST (Japan Standard Time)", noQuery⟩ "u1"
    ⟨"JST (Japan Standard Time)", "Asia/Tokyo", "UTC + 9:00"⟩ (by decide) (by decide)

/-- C3: a save request whose body fails to parse, or whose `timezone` field
equals no catalog label, answers 400 and leaves the map exactly as it was; and
the handler answers 400 only in those two cases. -/
theorem save_rejection {Loc : Type} (env : Env Loc) (m : UserTimezoneMap)
    (r : HttpRequest) :
    ((env.jsonDecode r.Body = none ∨
        ∃ req, env.jsonDecode r.Body = some req ∧ ∀ e ∈ timezones, req.Timezone ≠ e.Label) →
      (SaveTimezoneHandler env m r).2.status = 400 ∧ (SaveTimezoneHandler env m r).1 = m) ∧
    ((SaveTimezoneHandler env m r).2.status = 400 →
      (env.jsonDecode r.Body = none ∨
        ∃ req, env.jsonDecode r.Body = some req ∧ ∀ e ∈ timezones, req.Timezone ≠ e.Label)) := by
  rcases SaveTimezoneHandler_cases env m r with ⟨h1, h2, h3⟩ | ⟨req, e, hd, he, hl, h⟩
  · exact ⟨fun _ => ⟨h2, h1⟩, fun _ => h3⟩
  · constructor
    · intro hbad
      rcases hbad with hnone | ⟨req2, hd2, hno⟩
      · rw [hnone] at hd; cases hd
      · rw [hd2] at hd
        cases hd
        exact absurd hl.symm (hno e he)
    · intro hs
      rw [h] at hs
      simp at hs

/-- C4: in every map state reachable from the empty map by a finite sequence
of list, save and current-time requests with arbitrary inputs, every stored
value is the identifier of some catalog entry. -/
theorem registry_valid {Loc : Type} (env : Env Loc) (evs : List Event) (u v : String)
    (h : run env emptyMap evs u = some v) :
    ∃ e ∈ timezones, e.Identifier = v :=
  ValidMap_run env evs emptyMap ValidMap_empty u v h

theorem registry_valid_witness :
    run sampleEnv emptyMap sampleEvents "u1" = some "Asia/Tokyo" ∧
    ∃ e ∈ timezones, e.Identifier = "Asia/Tokyo" :=
  ⟨by decide, registry_valid sampleEnv sampleEvents "u1" "Asia/Tokyo" (by decide)⟩

/-- C5: for every map state (also one where the key already holds a value),
every user id and every identifier `B`, the read of the key right after the
assignment of `B` to it finds exactly `B`, and so does the read after
assigning `A` and then `B`. The write is the one `SaveTimezoneHandler`
performs: a save parsing to `(userID, e.Label)` for a catalog entry `e` with
identifier `B` turns the map into the map with `B` assigned under `userID`.
The read is the one `GetCurrentTimeHandler` performs: queried for a non-empty
`userID` right after that assignment it proceeds with exactly `B` (never 404;
200 with `timezone = B` when `B` resolves, 500 otherwise). Hence save `A`,
save `B`, then the query for `userID` reads `B`. -/
theorem save_then_lookup {Loc : Type} (env : Env Loc) (m : UserTimezoneMap)
    (userID A B : String) :
    mapIndex (mapAssign m userID B) userID = (B, true) ∧
    mapIndex (mapAssign (mapAssign m userID A) userID B) userID = (B, true) ∧
    (∀ (r : HttpRequest) (e : Timezone), e ∈ timezones → e.Identifier = B →
      env.jsonDecode r.Body = some ⟨userID, e.Label⟩ →
      (SaveTimezoneHandler env m r).1 = mapAssign m userID B ∧
      mapIndex (SaveTimezoneHandler env m r).1 userID = (B, true)) ∧
    (∀ (q : HttpRequest) (now : Int), userID ≠ "" → q.Query.Get "user_id" = userID →
      (GetCurrentTimeHandler env (mapAssign m userID B) q now).2 =
        match env.LoadLocation B with
        | none => ⟨500, .text "Invalid timezone"⟩
        | some loc =>
          ⟨200, .jsonObject [("user_id", userID), ("timezone", B),
                             ("current_time", env.formatRFC3339 loc now)]⟩) ∧
    (∀ (rA rB q : HttpRequest) (a b : Timezone) (now : Int),
      a ∈ timezones → a.Identifier = A → b ∈ timezones → b.Identifier = B →
      env.jsonDecode rA.Body = some ⟨userID, a.Label⟩ →
      env.jsonDecode rB.Body = some ⟨userID, b.Label⟩ →
      mapIndex (SaveTimezoneHandler env (SaveTimezoneHandler env m rA).1 rB).1 userID
        = (B, true) ∧
      (userID ≠ "" → q.Query.Get "user_id" = userID →
        (GetCurrentTimeHandler env
            (SaveTimezoneHandler env (SaveTimezoneHandler env m rA).1 rB).1 q now).2 =
          match env.LoadLocation B with
          | none => ⟨500, .text "Invalid timezone"⟩
          | some loc =>
            ⟨200, .jsonObject [("user_id", userID), ("timezone", B),
                               ("current_time", env.formatRFC3339 loc now)]⟩)) := by
  have hread : ∀ (m2 : UserTimezoneMap) (q : HttpRequest) (now : Int), userID ≠ "" →
      q.Query.Get "user_id" = userID →
      (GetCurrentTimeHandler env (mapAssign m2 userID B) q now).2 =
        match env.LoadLocation B with
        | none => ⟨500, .text "Invalid timezone"⟩
        | some loc =>
          ⟨200, .jsonObject [("user_id", userID), ("timezone", B),
                             ("current_time", env.formatRFC3339 loc now)]⟩ := by
    intro m2 q now hne hq
    have hstored : mapAssign m2 userID B (q.Query.Get "user_id") = some B := by
      simp [mapAssign, hq]
    rcases GetCurrentTimeHandler_cases env (mapAssign m2 userID B) q now with
      ⟨hu, _⟩ | ⟨_, hm, _⟩ | ⟨_, id, hm, hl, h⟩ | ⟨_, id, loc, hm, hl, h⟩
    · exact absurd (hu.symm.trans hq).symm hne
    · rw [hstored] at hm; cases hm
    · rw [hstored] at hm
      cases hm
      rw [h, hl]
    · rw [hstored] at hm
      cases hm
      rw [h, hl, hq]
  refine ⟨by simp [mapIndex, mapAssign], by simp [mapIndex, mapAssign], ?_, hread m, ?_⟩
  · intro r e he hid hparse
    rw [SaveTimezoneHandler_valid env m r userID e he hparse, hid]
    exact ⟨rfl, by simp [mapIndex, mapAssign]⟩
  · intro rA rB q a b now ha hida hb hidb hpa hpb
    rw [SaveTimezoneHandler_valid env _ rB userID b hb hpb, hidb]
    exact ⟨by simp [mapIndex, mapAssign], hread _ q now⟩

theorem save_then_lookup_witness :
    mapIndex (SaveTimezoneHandler sampleEnv (mapAssign emptyMap "u1" "UTC")
      ⟨"u1,JST (Japan Standard Time)", noQuery⟩).1 "u1" = ("Asia/Tokyo", true) ∧
    (GetCurrentTimeHandler sampleEnv
      (mapAssign (mapAssign emptyMap "u1" "UTC") "u1" "Asia/Tokyo")
      ⟨"", userQuery "u1"⟩ 9).2.field "timezone" = some "Asia/Tokyo" ∧
    mapIndex (SaveTimezoneHandler sampleEnv
      (SaveTimezoneHandler sampleEnv (mapAssign emptyMap "u1" "UTC")
        ⟨"u1,KST (Korea Standard Time)", noQuery⟩).1
      ⟨"u1,JST (Japan Standard Time)", noQuery⟩).1 "u1" = ("Asia/Tokyo", true) ∧
    (GetCurrentTimeHandler sampleEnv (SaveTimezoneHandler sampleEnv
      (SaveTimezoneHandler sampleEnv (mapAssign emptyMap "u1" "UTC")
        ⟨"u1,KST (Korea Standard Time)", noQuery⟩).1
      ⟨"u1,JST (Japan Standard Time)", noQuery⟩).1
      ⟨"", userQuery "u1"⟩ 9).2.field "timezone" = some "Asia/Tokyo" := by
  have h := save_then_lookup sampleEnv (mapAssign emptyMap "u1" "UTC") "u1"
    "Asia/Seoul" "Asia/Tokyo"
  have h3 := h.2.2.1 ⟨"u1,JST (Japan Standard Time)", noQuery⟩
    ⟨"JST (Japan Standard Time)", "Asia/Tokyo", "UTC + 9:00"⟩
    (by decide) (by decide) (by decide)
  have h4 := h.2.2.2.1 ⟨"", userQuery "u1"⟩ 9 (by decide) (by decide)
  have h5 := h.2.2.2.2 ⟨"u1,KST (Korea Standard Time)", noQuery⟩
    ⟨"u1,JST (Japan Standard Time)", noQuery⟩ ⟨"", userQuery "u1"⟩
    ⟨"KST (Korea Standard Time)", "Asia/Seoul", "UTC + 9:00"⟩
    ⟨"JST (Japan Standard Time)", "Asia/Tokyo", "UTC + 9:00"⟩ 9
    (by decide) (by decide) (by decide) (by decide) (by decide) (by decide)
  have h6 := h5.2 (by decide) (by decide)
  have hl : sampleEnv.LoadLocation "Asia/Tokyo" = some 11 := by decide
  rw [hl] at h4 h6
  refine ⟨h3.2, ?_, h5.1, ?_⟩
  · rw [h4]; rfl
  · rw [h6]; rfl

/-- C6: the current-time handler answers 400 iff the first `user_id` query
value is absent or empty; 404 iff it is non-empty and the map holds no entry
for it; 500 iff it is non-empty, an entry exists and its identifier does not
resolve; and otherwise 200 with `user_id` the query value and `timezone` the
stored identifier. The map is left unchanged in every case. -/
theorem current_time_status {Loc : Type} (env : Env Loc) (m : UserTimezoneMap)
    (r : HttpRequest) (now : Int) :
    (GetCurrentTimeHandler env m r now).1 = m ∧
    (r.Query.Get "user_id" = "" ↔
      (r.Query "user_id" = [] ∨ (r.Query "user_id").head? = some "")) ∧
    ((GetCurrentTimeHandler env m r now).2.status = 400 ↔ r.Query.Get "user_id" = "") ∧
    ((GetCurrentTimeHandler env m r now).2.status = 404 ↔
      (r.Query.Get "user_id" ≠ "" ∧ m (r.Query.Get "user_id") = none)) ∧
    ((GetCurrentTimeHandler env m r now).2.status = 500 ↔
      (r.Query.Get "user_id" ≠ "" ∧
        ∃ id, m (r.Query.Get "user_id") = some id ∧ env.LoadLocation id = none)) ∧
    ((GetCurrentTimeHandler env m r now).2.status = 200 ↔
      (r.Query.Get "user_id" ≠ "" ∧
        ∃ id loc, m (r.Query.Get "user_id") = some id ∧ env.LoadLocation id = some loc)) ∧
    ((GetCurrentTimeHandler env m r now).2.status = 200 →
      (GetCurrentTimeHandler env m r now).2.field "user_id" = some (r.Query.Get "user_id") ∧
      (GetCurrentTimeHandler env m r now).2.field "timezone" = m (r.Query.Get "user_id")) ∧
    ((GetCurrentTimeHandler env m r now).2.status = 400 ∨
      (GetCurrentTimeHandler env m r now).2.status = 404 ∨
      (GetCurrentTimeHandler env m r now).2.status = 500 ∨
      (GetCurrentTimeHandler env m r now).2.status = 200) := by
  refine ⟨GetCurrentTimeHandler_map env m r now, ?_, ?_⟩
  · unfold Values.Get
    cases r.Query "user_id" with
    | nil => simp
    | cons x xs => simp
  · rcases GetCurrentTimeHandler_cases env m r now with
      ⟨hu, h⟩ | ⟨hu, hm, h⟩ | ⟨hu, id, hm, hl, h⟩ | ⟨hu, id, loc, hm, hl, h⟩
    · rw [h]; simp [hu]
    · rw [h]; simp [hu, hm]
    · rw [h]; simp [hu, hm, hl]
    · rw [h]; simp [hu, hm, hl, Response.field, List.lookup]

/-- C7 fails for the empty user id: the save for `user_id = ""` with the label
`"JST (Japan Standard Time)"` answers 200 with `"Asia/Tokyo"`, the identifier
resolves, and yet the query for the same `user_id = ""` right after it answers
400 "User ID is required". -/
theorem save_then_query_empty_user_id :
    sampleEnv.jsonDecode ",JST (Japan Standard Time)" =
      some ⟨"", "JST (Japan Standard Time)"⟩ ∧
    (SaveTimezoneHandler sampleEnv emptyMap ⟨",JST (Japan Standard Time)", noQuery⟩).2 =
      ⟨200, .jsonObject [("message", "Timezone saved successfully"),
                         ("timezone", "Asia/Tokyo")]⟩ ∧
    (SaveTimezoneHandler sampleEnv emptyMap ⟨",JST (Japan Standard Time)", noQuery⟩).1 "" =
      some "Asia/Tokyo" ∧
    (sampleEnv.LoadLocation "Asia/Tokyo").isSome = true ∧
    (userQuery "").Get "user_id" = "" ∧
    (GetCurrentTimeHandler sampleEnv
        (SaveTimezoneHandler sampleEnv emptyMap ⟨",JST (Japan Standard Time)", noQuery⟩).1
        ⟨"", userQuery ""⟩ 1).2 = ⟨400, .text "User ID is required"⟩ := by
  decide

/-- C7, amended: for every non-empty user id and every catalog entry `e` whose
identifier resolves, a save request parsing to `(user_id, e.Label)` answers 200
with `timezone = e.Identifier`, and after any further requests none of which
is a save parsing to that user id, a query whose `user_id` value is that user
id answers 200 with `user_id` equal to it and `timezone` equal to
`e.Identifier`. -/
theorem save_then_query {Loc : Type} (env : Env Loc) (m : UserTimezoneMap)
    (r q : HttpRequest) (userID : String) (e : Timezone) (evs : List Event) (now : Int)
    (hne : userID ≠ "") (he : e ∈ timezones)
    (hparse : env.jsonDecode r.Body = some ⟨userID, e.Label⟩)
    (hres : (env.LoadLocation e.Identifier).isSome = true)
    (hno : ∀ ev ∈ evs, ev.route = Route.usersTimezone →
      (env.jsonDecode ev.req.Body).map SaveTimezoneRequest.UserID ≠ some userID)
    (hq : q.Query.Get "user_id" = userID) :
    (SaveTimezoneHandler env m r).2.status = 200 ∧
    (SaveTimezoneHandler env m r).2.field "timezone" = some e.Identifier ∧
    (GetCurrentTimeHandler env (run env (SaveTimezoneHandler env m r).1 evs) q now).2.status
      = 200 ∧
    (GetCurrentTimeHandler env (run env (SaveTimezoneHandler env m r).1 evs) q now).2.field
      "user_id" = some userID ∧
    (GetCurrentTimeHandler env (run env (SaveTimezoneHandler env m r).1 evs) q now).2.field
      "timezone" = some e.Identifier := by
  have hstored : run env (SaveTimezoneHandler env m r).1 evs (q.Query.Get "user_id")
      = some e.Identifier := by
    rw [hq, run_other env evs userID hno, SaveTimezoneHandler_valid env m r userID e he hparse]
    simp [mapAssign]
  have hsave := SaveTimezoneHandler_valid env m r userID e he hparse
  refine ⟨by rw [hsave], by rw [hsave]; simp [Response.field, List.lookup], ?_⟩
  rcases GetCurrentTimeHandler_cases env (run env (SaveTimezoneHandler env m r).1 evs) q now
    with ⟨hu, _⟩ | ⟨_, hm, _⟩ | ⟨_, id, hm, hl, _⟩ | ⟨_, id, loc, hm, hl, h⟩
  · exact absurd (hu.symm.trans hq).symm hne
  · rw [hstored] at hm; cases hm
  · rw [hstored] at hm
    cases hm
    rw [hl] at hres
    cases hres
  · rw [hstored] at hm
    cases hm
    rw [h, hq]
    simp [Response.field, List.lookup]

theorem save_then_query_witness :
    (SaveTimezoneHandler sampleEnv emptyMap
        ⟨"u1,JST (Japan Standard Time)", noQuery⟩).2.status = 200 ∧
    (SaveTimezoneHandler sampleEnv emptyMap
        ⟨"u1,JST (Japan Standard Time)", noQuery⟩).2.field "timezone" = some "Asia/Tokyo" ∧
    (GetCurrentTimeHandler sampleEnv
        (run sampleEnv (SaveTimezoneHandler sampleEnv emptyMap
          ⟨"u1,JST (Japan Standard Time)", noQuery⟩).1 otherEvents)
        ⟨"", userQuery "u1"⟩ 9).2.status = 200 ∧
    (GetCurrentTimeHandler sampleEnv
        (run sampleEnv (SaveTimezoneHandler sampleEnv emptyMap
          ⟨"u1,JST (Japan Standard Time)", noQuery⟩).1 otherEvents)
        ⟨"", userQuery "u1"⟩ 9).2.field "user_id" = some "u1" ∧
    (GetCurrentTimeHandler sampleEnv
        (run sampleEnv (SaveTimezoneHandler sampleEnv emptyMap
          ⟨"u1,JST (Japan Standard Time)", noQuery⟩).1 otherEvents)
        ⟨"", userQuery "u1"⟩ 9).2.field "timezone" = some "Asia/Tokyo" :=
  save_then_query sampleEnv emptyMap ⟨"u1,JST (Japan Standard Time)", noQuery⟩
    ⟨"", userQuery "u1"⟩ "u1" ⟨"JST (Japan Standard Time)", "Asia/Tokyo", "UTC + 9:00"⟩
    otherEvents 9 (by decide) (by decide) (by decide) (by decide) (by decide) (by decide)

/-- C8: if the timezone resolver succeeds on every identifier listed in the
catalog, then in every map state reachable from the empty map through the
three handlers the current-time handler never answers 500, whatever the
request. -/
theorem no_internal_error {Loc : Type} (env : Env Loc)
    (hres : ∀ e ∈ timezones, (env.LoadLocation e.Identifier).isSome = true)
    (evs : List Event) (r : HttpRequest) (now : Int) :
    (GetCurrentTimeHandler env (run env emptyMap evs) r now).2.status ≠ 500 := by
  rcases GetCurrentTimeHandler_cases env (run env emptyMap evs) r now with
    ⟨_, h⟩ | ⟨_, _, h⟩ | ⟨_, id, hm, hl, _⟩ | ⟨_, _, _, _, _, h⟩
  · rw [h]; simp
  · rw [h]; simp
  · obtain ⟨e, he, hid⟩ := ValidMap_run env evs emptyMap ValidMap_empty _ _ hm
    have := hres e he
    rw [hid, hl] at this
    cases this
  · rw [h]; simp

theorem no_internal_error_witness :
    (∀ e ∈ timezones, (sampleEnv.LoadLocation e.Identifier).isSome = true) ∧
    (GetCurrentTimeHandler sampleEnv (run sampleEnv emptyMap sampleEvents)
      ⟨"", userQuery "u1"⟩ 9).2.status = 200 ∧
    (GetCurrentTimeHandler sampleEnv (run sampleEnv emptyMap sampleEvents)
      ⟨"", userQuery "u1"⟩ 9).2.status ≠ 500 :=
  ⟨by decide, by decide,
    no_internal_error sampleEnv (by decide) sampleEvents ⟨"", userQuery "u1"⟩ 9⟩

/-- C9: for every map state and every request, the list handler answers 200
and hands the JSON encoder exactly the static catalog, the 28 entries in the
order of the definition, whatever the map holds, and leaves the map
unchanged. -/
theorem list_timezones (m m2 : UserTimezoneMap) (r r2 : HttpRequest) :
    (GetTimezonesHandler m r).2 = ⟨200, .jsonTimezones timezones⟩ ∧
    (GetTimezonesHandler m r).2 = (GetTimezonesHandler m2 r2).2 ∧
    (GetTimezonesHandler m r).1 = m ∧
    timezones.length = 28 ∧
    timezones.head? = some ⟨"UTC (Coordinated Universal Time)", "UTC", "UTC + 0:00"⟩ ∧
    timezones.getLast? =
      some ⟨"ART (Argentina Time)", "America/Argentina/Buenos_Aires", "UTC - 3:00"⟩ ∧
    timezones.map Timezone.Identifier =
      ["UTC", "Europe/London", "Europe/Berlin", "Europe/Athens", "Europe/Moscow",
       "Asia/Dubai", "Asia/Kolkata", "Asia/Dhaka", "Asia/Bangkok", "Asia/Shanghai",
       "Australia/Perth", "Asia/Tokyo", "Asia/Seoul", "Australia/Adelaide",
       "Australia/Sydney", "Pacific/Guam", "Pacific/Auckland", "Pacific/Pago_Pago",
       "Pacific/Honolulu", "America/Anchorage", "America/Los_Angeles", "America/Denver",
       "America/Chicago", "America/New_York", "America/Puerto_Rico", "America/St_Johns",
       "America/Sao_Paulo", "America/Argentina/Buenos_Aires"] :=
  ⟨rfl, rfl, rfl, by decide, by decide, by decide, by decide⟩

/-- C10: a successful save for user `u` leaves the lookup of every other user
id exactly as it was (present with the same identifier, or absent); it sets
the single key `u` and removes nothing. -/
theorem save_frame {Loc : Type} (env : Env Loc) (m : UserTimezoneMap)
    (r : HttpRequest) (u : String) (e : Timezone) (he : e ∈ timezones)
    (hparse : env.jsonDecode r.Body = some ⟨u, e.Label⟩) :
    (∀ v, v ≠ u →
      (SaveTimezoneHandler env m r).1 v = m v ∧
      mapIndex (SaveTimezoneHandler env m r).1 v = mapIndex m v) ∧
    (SaveTimezoneHandler env m r).1 u = some e.Identifier ∧
    (∀ k, (m k).isSome = true → ((SaveTimezoneHandler env m r).1 k).isSome = true) := by
  rw [SaveTimezoneHandler_valid env m r u e he hparse]
  refine ⟨?_, by simp [mapAssign], ?_⟩
  · intro v hv
    simp [mapAssign, mapIndex, hv]
  · intro k hk
    simp only [mapAssign]
    split
    · rfl
    · exact hk

theorem save_frame_witness :
    (mapAssign emptyMap "u2" "UTC") "u2" = some "UTC" ∧
    (SaveTimezoneHandler sampleEnv (mapAssign emptyMap "u2" "UTC")
      ⟨"u1,KST (Korea Standard Time)", noQuery⟩).1 "u2" = some "UTC" ∧
    (SaveTimezoneHandler sampleEnv (mapAssign emptyMap "u2" "UTC")
      ⟨"u1,KST (Korea Standard Time)", noQuery⟩).1 "u1" = some "Asia/Seoul" :=
  ⟨by decide,
    ((save_frame sampleEnv (mapAssign emptyMap "u2" "UTC")
      ⟨"u1,KST (Korea Standard Time)", noQuery⟩ "u1"
      ⟨"KST (Korea Standard Time)", "Asia/Seoul", "UTC + 9:00"⟩
      (by decide) (by decide)).1 "u2" (by decide)).1,
    (save_frame sampleEnv (mapAssign emptyMap "u2" "UTC")
      ⟨"u1,KST (Korea Standard Time)", noQuery⟩ "u1"
      ⟨"KST (Korea Standard Time)", "Asia/Seoul", "UTC + 9:00"⟩
      (by decide) (by decide)).2.1⟩

end Timezones
